import Mathlib

/-
Shallow embedding of `src/runtime.h`, a pointer-tagging value runtime.

Machine words (`void *`, `uintptr_t`, `uint64_t`) are modelled as `Nat`,
reduced modulo `2 ^ 64` wherever the C code's 64-bit arithmetic wraps.
Reinterpretation as `int64_t` is modelled by `toSigned64`, and the C
arithmetic right shift `>> 3` on `int64_t` by flooring division
(`Int.fdiv`) by 8.  The heap is an explicit partial map from addresses
to `HeapObject`s; `malloc` is modelled by passing in the address the
allocator returns.  The recursive printer takes explicit fuel and
returns `none` when evaluation is not defined (fuel exhausted,
dereference of an unmapped address, or a union payload read that does
not match the object's tag).
-/

/-- `#define TAG_MASK 0b111` -/
def TAG_MASK : Nat := 7

/-- `#define INT_TAG 0b001` -/
def INT_TAG : Nat := 1

/-- `#define BOOL_TAG 0b010` -/
def BOOL_TAG : Nat := 2

/-- `#define CHAR_TAG 0b011` -/
def CHAR_TAG : Nat := 3

/-- `#define NULL_VAL ((void *)0x14)` -/
def NULL_VAL : Nat := 0x14

/-- `#define FALSE_VAL ((void *)BOOL_TAG)` -/
def FALSE_VAL : Nat := BOOL_TAG

/-- `#define TRUE_VAL ((void *)(0b110))` -/
def TRUE_VAL : Nat := 6

/-- Two's-complement reinterpretation of a 64-bit word as `int64_t`. -/
def toSigned64 (v : Nat) : Int :=
  if v % 2 ^ 64 < 2 ^ 63 then ((v % 2 ^ 64 : Nat) : Int)
  else ((v % 2 ^ 64 : Nat) : Int) - 2 ^ 64

/-- `int_to_val`: `(void *)((i << 3) | INT_TAG)`.  The `int64_t` shift
`i << 3` wraps modulo `2 ^ 64`; the resulting word pattern is the
nonnegative residue `(i * 8) % 2 ^ 64`. -/
def int_to_val (i : Int) : Nat :=
  ((i * 8) % 2 ^ 64).toNat ||| INT_TAG

/-- `val_to_int`: `((int64_t)val >> 3)`, an arithmetic shift right by 3,
i.e. flooring division of the signed reinterpretation by 8. -/
def val_to_int (v : Nat) : Int :=
  Int.fdiv (toSigned64 v) 8

/-- The cast `(uint64_t)c` of a (signed, on the target ABI) `char` holding
byte `c`: bytes at and above 128 are sign-extended. -/
def signExtendByte (c : Nat) : Nat :=
  if c % 256 < 128 then c % 256 else 2 ^ 64 - 256 + c % 256

/-- `char_to_val`: `(void *)(((uint64_t)c << 3) | CHAR_TAG)`. -/
def char_to_val (c : Nat) : Nat :=
  (signExtendByte c * 8) % 2 ^ 64 ||| CHAR_TAG

/-- `val_to_char`: `(char)(((uint64_t)v) >> 3)`: logical shift right by 3,
then truncation to the low byte. -/
def val_to_char (v : Nat) : Nat :=
  (v % 2 ^ 64) / 8 % 256

/-- `is_int`: `((uintptr_t)v & TAG_MASK) == INT_TAG` -/
def is_int (v : Nat) : Bool :=
  v &&& TAG_MASK == INT_TAG

/-- `is_bool`: `((uintptr_t)v & TAG_MASK) == BOOL_TAG` -/
def is_bool (v : Nat) : Bool :=
  v &&& TAG_MASK == BOOL_TAG

/-- `is_char`: `((uintptr_t)v & TAG_MASK) == CHAR_TAG` -/
def is_char (v : Nat) : Bool :=
  v &&& TAG_MASK == CHAR_TAG

/-- `is_heap_ptr`: `((uintptr_t)v & TAG_MASK) == 0` -/
def is_heap_ptr (v : Nat) : Bool :=
  v &&& TAG_MASK == 0

/-- `#define TYPE_DOUBLE_TAG 0` -/
def TYPE_DOUBLE_TAG : Nat := 0

/-- `#define TYPE_STRING_TAG 1` -/
def TYPE_STRING_TAG : Nat := 1

/-- `#define TYPE_PAIR_TAG 2` -/
def TYPE_PAIR_TAG : Nat := 2

/-- `#define TYPE_SYMBOL_TAG 3` -/
def TYPE_SYMBOL_TAG : Nat := 3

/-- The anonymous union inside `HeapObject`: exactly one member is
active at a time.  `asPair` carries the two word-sized handles. -/
inductive Payload where
  | asDouble (d : Float)
  | asString (s : String)
  | asPair (car cdr : Nat)
  | asSymbol (s : String)

/-- `HeapObject`: a `uint8_t` tag together with the union payload.  The
tag is an arbitrary byte-sized number; it is not restricted to the four
defined `TYPE_*` values, mirroring the C representation. -/
structure HeapObject where
  tag : Nat
  payload : Payload

/-- The heap: a partial map from word addresses to allocated objects. -/
def Heap : Type := Nat → Option HeapObject

/-- A heap with no allocations. -/
def emptyHeap : Heap := fun _ => none

/-- `box_double`: `malloc` an object at the (allocator-chosen) address
`addr`, set the tag to `TYPE_DOUBLE_TAG`, store `f`, and return the
object address as the handle. -/
def box_double (h : Heap) (addr : Nat) (f : Float) : Heap × Nat :=
  (fun x => if x = addr then some ⟨TYPE_DOUBLE_TAG, Payload.asDouble f⟩ else h x, addr)

/-- `box_string`: allocate at `addr` with tag `TYPE_STRING_TAG`; `strdup`
is modelled by storing the (immutable) string value itself. -/
def box_string (h : Heap) (addr : Nat) (s : String) : Heap × Nat :=
  (fun x => if x = addr then some ⟨TYPE_STRING_TAG, Payload.asString s⟩ else h x, addr)

/-- `cons`: allocate at `addr` with tag `TYPE_PAIR_TAG`, storing both
handles verbatim. -/
def cons (h : Heap) (addr : Nat) (car cdr : Nat) : Heap × Nat :=
  (fun x => if x = addr then some ⟨TYPE_PAIR_TAG, Payload.asPair car cdr⟩ else h x, addr)

/-- `box_symbol`: allocate at `addr` with tag `TYPE_SYMBOL_TAG`. -/
def box_symbol (h : Heap) (addr : Nat) (s : String) : Heap × Nat :=
  (fun x => if x = addr then some ⟨TYPE_SYMBOL_TAG, Payload.asSymbol s⟩ else h x, addr)

/-- `print_value`, embedded as a text-returning function.  `fuel` bounds
the call stack of the C recursion; `none` models the cases the C source
leaves undefined (unbounded recursion, dereferencing an address with no
allocated object, a union read that mismatches the tag) plus the one
branch not modelled here: `printf("%f", ...)` output for `Double`
objects, whose floating-point formatting is outside this development.
Branch structure and branch order mirror the C function exactly. -/
def print_value (fuel : Nat) (h : Heap) (v : Nat) : Option String :=
  match fuel with
  | 0 => none
  | fuel + 1 =>
    if v = NULL_VAL then some "null"
    else if is_int v then some (toString (val_to_int v))
    else if is_bool v then some (if v = TRUE_VAL then "#t" else "#f")
    else if is_char v then some ("#\\" ++ (Char.ofNat (val_to_char v)).toString)
    else if is_heap_ptr v then
      match h v with
      | none => none
      | some obj =>
        if obj.tag = TYPE_DOUBLE_TAG then
          none
        else if obj.tag = TYPE_STRING_TAG then
          match obj.payload with
          | Payload.asString s => some ("\"" ++ s ++ "\"")
          | _ => none
        else if obj.tag = TYPE_PAIR_TAG then
          match obj.payload with
          | Payload.asPair a b =>
            match print_value fuel h a, print_value fuel h b with
            | some sa, some sb => some ("(" ++ sa ++ " . " ++ sb ++ ")")
            | _, _ => none
          | _ => none
        else if obj.tag = TYPE_SYMBOL_TAG then
          match obj.payload with
          | Payload.asSymbol s => some ("'" ++ s ++ "'")
          | _ => none
        else some "<unknown>"
    else some "<badval>"

/-- The categories a handle can fall into, following the dispatch chain
of `print_value` (the source has no separate `classify` function; the
`is_*` predicate family, tried in this order, is its classification). -/
inductive Category where
  | NullCat
  | IntegerCat
  | BooleanCat
  | CharacterCat
  | HeapRefCat
  | InvalidCat
  deriving DecidableEq

/-- Classification of a handle by its low-3-bit discriminant, in the
dispatch order used by `print_value`. -/
def classify (v : Nat) : Category :=
  if v = NULL_VAL then Category.NullCat
  else if is_int v then Category.IntegerCat
  else if is_bool v then Category.BooleanCat
  else if is_char v then Category.CharacterCat
  else if is_heap_ptr v then Category.HeapRefCat
  else Category.InvalidCat

/-- The nested pair of the spec's printing example:
`make_pair(encode_integer(2), Null)`, allocated at address 16. -/
def c6inner : Heap × Nat := cons emptyHeap 16 (int_to_val 2) NULL_VAL

/-- The outer pair of the spec's printing example:
`make_pair(encode_integer(1), make_pair(encode_integer(2), Null))`,
allocated at address 8. -/
def c6outer : Heap × Nat := cons c6inner.1 8 (int_to_val 1) c6inner.2

/-- A heap holding, at address 8, an object whose tag (4) is none of the
four defined `TYPE_*` variants. -/
def badTagHeap : Heap :=
  fun x => if x = 8 then some ⟨4, Payload.asSymbol "z"⟩ else none

theorem and_seven_eq_mod (v : Nat) : v &&& 7 = v % 8 := by
  have h := Nat.and_pow_two_sub_one_eq_mod v 3
  norm_num at h
  exact h

theorem eight_mul_or (k t : Nat) (h : t < 8) : 8 * k ||| t = 8 * k + t := by
  have h8 := Nat.mul_add_lt_is_or (i := 3) (b := t) (by omega) k
  norm_num at h8
  exact h8.symm

theorem int_to_val_eq (i : Int) :
    int_to_val i = 8 * ((i % 2 ^ 61).toNat) + 1 := by
  unfold int_to_val INT_TAG
  have h3 : ((i * 8) % 2 ^ 64).toNat = 8 * ((i % 2 ^ 61).toNat) := by omega
  rw [h3, eight_mul_or _ 1 (by omega)]

theorem decode_encode (i : Int) :
    val_to_int (int_to_val i) =
      (if (i % 2 ^ 61 : Int) < 2 ^ 60 then i % 2 ^ 61 else i % 2 ^ 61 - 2 ^ 61) := by
  rw [int_to_val_eq]
  unfold val_to_int toSigned64
  rw [Int.fdiv_eq_ediv _ (by omega)]
  split <;> split <;> omega

theorem heap_ptr_facts {addr : Nat} (hm : addr &&& TAG_MASK = 0) :
    addr ≠ NULL_VAL ∧ is_int addr = false ∧ is_bool addr = false ∧
    is_char addr = false ∧ is_heap_ptr addr = true := by
  unfold TAG_MASK at hm
  rw [and_seven_eq_mod] at hm
  refine ⟨?_, ?_, ?_, ?_, ?_⟩
  · unfold NULL_VAL; omega
  · unfold is_int TAG_MASK INT_TAG; rw [and_seven_eq_mod, hm]; rfl
  · unfold is_bool TAG_MASK BOOL_TAG; rw [and_seven_eq_mod, hm]; rfl
  · unfold is_char TAG_MASK CHAR_TAG; rw [and_seven_eq_mod, hm]; rfl
  · unfold is_heap_ptr TAG_MASK; rw [and_seven_eq_mod, hm]; rfl

/-- C1: the code prints `"<badval>"` for the canonical `TRUE_VAL` handle
(because `is_bool` matches only the `010` pattern, not `110`), while
`FALSE_VAL` does print `"#f"`.  This evaluates `print_value` at the
failing input of the claim `print(TRUE) == "#t"`. -/
theorem c1_print_bool_evidence :
    print_value 1 emptyHeap TRUE_VAL = some "<badval>" ∧
    print_value 1 emptyHeap FALSE_VAL = some "#f" :=
  ⟨rfl, rfl⟩

/-- C2: the canonical true handle is not classified Boolean by the code:
`is_bool TRUE_VAL` is `false` (6 &&& 7 = 6 ≠ 2), so the dispatch chain
classifies `TRUE_VAL` as Invalid, while `FALSE_VAL` is Boolean and the
two handles are distinct.  This evaluates the code at the failing input
of the claim `classify(TRUE) == Boolean`. -/
theorem c2_true_misclassified :
    classify TRUE_VAL = Category.InvalidCat ∧
    classify FALSE_VAL = Category.BooleanCat ∧
    TRUE_VAL ≠ FALSE_VAL ∧
    is_bool TRUE_VAL = false ∧ is_bool FALSE_VAL = true := by
  decide

/-- C9: the Null sentinel 0x14 has low-3-bit discriminant 100 (= 4), a
reserved pattern, so none of the classification predicates hold of it;
in particular it is never taken for a heap reference. -/
theorem c9_null_sentinel_reserved :
    NULL_VAL &&& TAG_MASK = 4 ∧
    is_heap_ptr NULL_VAL = false ∧ is_int NULL_VAL = false ∧
    is_bool NULL_VAL = false ∧ is_char NULL_VAL = false := by
  decide

/-- C8: the four classification predicates test the same low-3-bit field
against four distinct patterns, so at most one of them holds of any
word. -/
theorem c8_mutual_exclusion (v : Nat) :
    (is_int v && is_bool v) = false ∧ (is_int v && is_char v) = false ∧
    (is_int v && is_heap_ptr v) = false ∧ (is_bool v && is_char v) = false ∧
    (is_bool v && is_heap_ptr v) = false ∧ (is_char v && is_heap_ptr v) = false := by
  unfold is_int is_bool is_char is_heap_ptr INT_TAG BOOL_TAG CHAR_TAG TAG_MASK
  simp only [and_seven_eq_mod]
  have h8 : v % 8 < 8 := Nat.mod_lt v (by omega)
  revert h8
  generalize v % 8 = m
  intro h8
  interval_cases m <;> decide

/-- C4: integer encode/decode round-trips on the representable range
[-2^60, 2^60 - 1]. -/
theorem c4_int_roundtrip (i : Int) (h1 : -(2 ^ 60) ≤ i) (h2 : i ≤ 2 ^ 60 - 1) :
    val_to_int (int_to_val i) = i := by
  rw [decode_encode]
  split <;> omega

/-- C4 witness: the round-trip theorem applied at -5. -/
theorem c4_witness : val_to_int (int_to_val (-5)) = -5 :=
  c4_int_roundtrip (-5) (by decide) (by decide)

/-- C10: for every 64-bit integer, encoding then decoding yields the
sign-extension of the low 61 bits: a value in [-2^60, 2^60 - 1]
congruent to the input modulo 2^61, and the encoded handle always
carries the Integer discriminant. -/
theorem c10_silent_truncation (i : Int) :
    is_int (int_to_val i) = true ∧
    -(2 ^ 60) ≤ val_to_int (int_to_val i) ∧
    val_to_int (int_to_val i) ≤ 2 ^ 60 - 1 ∧
    (i - val_to_int (int_to_val i)) % 2 ^ 61 = 0 := by
  refine ⟨?_, ?_, ?_, ?_⟩
  · unfold is_int TAG_MASK INT_TAG
    rw [int_to_val_eq, and_seven_eq_mod]
    have h1 : (8 * (i % 2 ^ 61).toNat + 1) % 8 = 1 := by omega
    rw [h1]
    rfl
  · rw [decode_encode]; split <;> omega
  · rw [decode_encode]; split <;> omega
  · rw [decode_encode]; split <;> omega

/-- C5: character encode/decode round-trips for every 8-bit code point,
and the encoded handle carries the Character discriminant. -/
theorem c5_char_roundtrip (c : Nat) (h : c < 256) :
    val_to_char (char_to_val c) = c ∧ is_char (char_to_val c) = true := by
  have hkey : char_to_val c = 8 * (if c < 128 then c else 2 ^ 61 - 256 + c) + 3 := by
    unfold char_to_val signExtendByte CHAR_TAG
    have hc : c % 256 = c := Nat.mod_eq_of_lt h
    rw [hc]
    by_cases h128 : c < 128
    · rw [if_pos h128, if_pos h128]
      have h1 : c * 8 % 2 ^ 64 = 8 * c := by omega
      rw [h1, eight_mul_or _ 3 (by omega)]
    · rw [if_neg h128, if_neg h128]
      have h1 : (2 ^ 64 - 256 + c) * 8 % 2 ^ 64 = 8 * (2 ^ 61 - 256 + c) := by omega
      rw [h1, eight_mul_or _ 3 (by omega)]
  constructor
  · unfold val_to_char
    rw [hkey]
    by_cases h128 : c < 128
    · rw [if_pos h128]; omega
    · rw [if_neg h128]; omega
  · unfold is_char TAG_MASK CHAR_TAG
    rw [hkey, and_seven_eq_mod]
    have h3 : (8 * (if c < 128 then c else 2 ^ 61 - 256 + c) + 3) % 8 = 3 := by
      generalize (if c < 128 then c else 2 ^ 61 - 256 + c) = K
      omega
    rw [h3]
    rfl

/-- C5 witness: the round-trip theorem applied at code point 200 (a byte
that exercises the sign-extending cast). -/
theorem c5_witness :
    val_to_char (char_to_val 200) = 200 ∧ is_char (char_to_val 200) = true :=
  c5_char_roundtrip 200 (by decide)

/-- C7: printing a boxed string yields the text wrapped in double
quotes, with the contents emitted verbatim (no escaping). -/
theorem c7_print_string (h : Heap) (addr fuel : Nat) (s : String)
    (hm : addr &&& TAG_MASK = 0) :
    print_value (fuel + 1) (box_string h addr s).1 (box_string h addr s).2 =
      some ("\"" ++ s ++ "\"") := by
  obtain ⟨h20, hi, hb2, hc, hh⟩ := heap_ptr_facts hm
  simp [print_value, box_string, h20, hi, hb2, hc, hh,
    TYPE_DOUBLE_TAG, TYPE_STRING_TAG]

/-- C7 witness: the string-printing theorem applied to the spec's
example `print(make_string("hi")) == "\"hi\""`. -/
theorem c7_witness :
    print_value 1 (box_string emptyHeap 8 "hi").1 (box_string emptyHeap 8 "hi").2 =
      some "\"hi\"" :=
  c7_print_string emptyHeap 8 0 "hi" (by decide)

/-- C6: printing a freshly consed pair emits dotted-pair notation built
from the printed car and cdr, recursively; in particular the spec's
nested example prints as `(1 . (2 . null))`, and `Null` prints as
`null`. -/
theorem c6_print_pair :
    (∀ (h : Heap) (addr a b fuel : Nat) (sa sb : String),
      addr &&& TAG_MASK = 0 →
      print_value fuel (cons h addr a b).1 a = some sa →
      print_value fuel (cons h addr a b).1 b = some sb →
      print_value (fuel + 1) (cons h addr a b).1 (cons h addr a b).2 =
        some ("(" ++ sa ++ " . " ++ sb ++ ")")) ∧
    print_value 3 c6outer.1 c6outer.2 = some "(1 . (2 . null))" ∧
    print_value 1 emptyHeap NULL_VAL = some "null" := by
  refine ⟨?_, by decide, by decide⟩
  intro h addr a b fuel sa sb hm ha hb
  obtain ⟨h20, hi, hb2, hc, hh⟩ := heap_ptr_facts hm
  simp only [cons, TYPE_PAIR_TAG] at ha hb ⊢
  simp [print_value, h20, hi, hb2, hc, hh, ha, hb,
    TYPE_DOUBLE_TAG, TYPE_STRING_TAG, TYPE_PAIR_TAG]

/-- C6 witness: the pair-printing theorem applied to the pair
`(encode_integer(1), Null)` allocated at address 8 in the empty heap. -/
theorem c6_witness :
    print_value 2 (cons emptyHeap 8 (int_to_val 1) NULL_VAL).1
      (cons emptyHeap 8 (int_to_val 1) NULL_VAL).2 = some "(1 . null)" :=
  c6_print_pair.1 emptyHeap 8 (int_to_val 1) NULL_VAL 1 "1" "null"
    (by decide) (by decide) (by decide)

/-- C3 counterexample: a heap object whose tag (4) is not one of the
four defined variants prints as `"<unknown>"`, not `"<badval>"` as the
claim states. -/
theorem c3_counterexample :
    print_value 1 badTagHeap 8 = some "<unknown>" ∧
    print_value 1 badTagHeap 8 ≠ some "<badval>" := by
  decide

/-- C3 (amended): a handle whose low 3 bits are one of the reserved
patterns 100, 101, 111 — other than the Null sentinel — prints exactly
`"<badval>"`; a heap reference whose object tag is not one of the four
defined variants prints `"<unknown>"` instead. -/
theorem c3_invalid_printing :
    (∀ (h : Heap) (v fuel : Nat),
      (v &&& TAG_MASK = 4 ∨ v &&& TAG_MASK = 5 ∨ v &&& TAG_MASK = 7) →
      v ≠ NULL_VAL →
      print_value (fuel + 1) h v = some "<badval>") ∧
    (∀ (h : Heap) (addr fuel : Nat) (obj : HeapObject),
      addr &&& TAG_MASK = 0 → h addr = some obj → 4 ≤ obj.tag →
      print_value (fuel + 1) h addr = some "<unknown>") := by
  constructor
  · intro h v fuel hm h20
    unfold TAG_MASK at hm
    rw [and_seven_eq_mod] at hm
    have hi : is_int v = false := by
      unfold is_int TAG_MASK INT_TAG
      rw [and_seven_eq_mod]
      rcases hm with h' | h' | h' <;> rw [h'] <;> rfl
    have hb2 : is_bool v = false := by
      unfold is_bool TAG_MASK BOOL_TAG
      rw [and_seven_eq_mod]
      rcases hm with h' | h' | h' <;> rw [h'] <;> rfl
    have hc : is_char v = false := by
      unfold is_char TAG_MASK CHAR_TAG
      rw [and_seven_eq_mod]
      rcases hm with h' | h' | h' <;> rw [h'] <;> rfl
    have hh : is_heap_ptr v = false := by
      unfold is_heap_ptr TAG_MASK
      rw [and_seven_eq_mod]
      rcases hm with h' | h' | h' <;> rw [h'] <;> rfl
    simp [print_value, h20, hi, hb2, hc, hh]
  · intro h addr fuel obj hm hlook htag
    obtain ⟨h20, hi, hb2, hc, hh⟩ := heap_ptr_facts hm
    have t0 : obj.tag ≠ TYPE_DOUBLE_TAG := by unfold TYPE_DOUBLE_TAG; omega
    have t1 : obj.tag ≠ TYPE_STRING_TAG := by unfold TYPE_STRING_TAG; omega
    have t2 : obj.tag ≠ TYPE_PAIR_TAG := by unfold TYPE_PAIR_TAG; omega
    have t3 : obj.tag ≠ TYPE_SYMBOL_TAG := by unfold TYPE_SYMBOL_TAG; omega
    simp [print_value, h20, hi, hb2, hc, hh, hlook, t0, t1, t2, t3]

/-- C3 witness: the amended theorem applied at the reserved-pattern word
5 and at the tag-4 object of `badTagHeap`. -/
theorem c3_witness :
    print_value 1 emptyHeap 5 = some "<badval>" ∧
    print_value 1 badTagHeap 8 = some "<unknown>" :=
  ⟨c3_invalid_printing.1 emptyHeap 5 0 (by decide) (by decide),
   c3_invalid_printing.2 badTagHeap 8 0 ⟨4, Payload.asSymbol "z"⟩
     (by decide) rfl (by decide)⟩

/-- C8 witness: mutual exclusion evaluated at the word 11 (pattern 011). -/
theorem c8_witness :
    (is_int 11 && is_bool 11) = false ∧ (is_int 11 && is_char 11) = false ∧
    (is_int 11 && is_heap_ptr 11) = false ∧ (is_bool 11 && is_char 11) = false ∧
    (is_bool 11 && is_heap_ptr 11) = false ∧ (is_char 11 && is_heap_ptr 11) = false :=
  c8_mutual_exclusion 11

/-- C10 witness: the truncation theorem applied at the out-of-range
input 2^61 + 5, which decodes back to 5. -/
theorem c10_witness :
    is_int (int_to_val (2 ^ 61 + 5)) = true ∧
    -(2 ^ 60) ≤ val_to_int (int_to_val (2 ^ 61 + 5)) ∧
    val_to_int (int_to_val (2 ^ 61 + 5)) ≤ 2 ^ 60 - 1 ∧
    ((2 ^ 61 + 5 : Int) - val_to_int (int_to_val (2 ^ 61 + 5))) % 2 ^ 61 = 0 :=
  c10_silent_truncation (2 ^ 61 + 5)
